import Mathlib

/-!
Verification development for the cog_converter repository.

The definitions below are a shallow embedding of the parts of the source
that the claims speak about:

* `src/cog_converter/storage/sqlite_metadata_manager.py` — the SQLite-backed
  metadata store (`DB`, `add_conversion_record`, `add_failed_conversion`,
  `create_duplicate_reference`, `handle_duplicate_file`,
  `is_duplicate_content`, `should_process_file`, ...).
* `src/cog_converter/storage/metadata_manager.py` — the JSON-backed store
  (`json_is_duplicate_content`).
* `src/cog_converter/pipeline.py` — `ConversionPipeline.process_file` and its
  helpers, modelled as pure state-passing functions over `DB`/`Stats` with an
  event trace.
* `src/cog_converter/engine.py` — `ConversionEngine._filter_files_for_processing`.

Modelling conventions: SQLite `NULL` is `Option.none`; table contents are
lists in storage (insertion) order; wall-clock timestamp columns are outside
the model (no claim mentions them) and file sizes are likewise omitted;
file-modification times are `Nat`.  Fallible sqlite calls are modelled with
an explicit failure oracle (`Oracle`): `oracle s = true` means the sqlite
execute of kind `s` raises an operational error, exactly where the Python
code would see an exception from the driver.  Exceptions are `Except` values;
an exception the Python code catches is matched on, one it does not catch is
propagated as `Except.error`.
-/

namespace CogConv

/-- One row of the `conversions` table (timestamp and size columns omitted,
see the module docstring). -/
structure ConversionRow where
  conversion_id : Nat
  original_file_path : String
  cog_file_path : String
  blob_path : Option String
  content_hash : String
  blob_url : Option String
  status : String
  duplicate_of_conversion_id : Option Nat
  duplicate_of_file_path : Option String
  is_duplicate : Bool
  error_message : Option String
  error_type : Option String
  run_id : Option Nat
  file_modification_time : Nat
deriving Repr, DecidableEq

/-- One row of the `processing_state` table (key: file_path, run_id). -/
structure StateRow where
  file_path : String
  run_id : Option Nat
  status : String
  content_hash : String
  file_modification_time : Nat
deriving Repr, DecidableEq

/-- The committed state of the SQLite database: the three tables the claims
are about.  `next_conversion_id` models the AUTOINCREMENT counter of
`conversions.conversion_id`. -/
structure DB where
  conversions : List ConversionRow
  processing_state : List StateRow
  content_hash_index : List (String × String)
  next_conversion_id : Nat
deriving Repr, DecidableEq

/-- The empty database, as created by `_create_tables`. -/
def DB.empty : DB := ⟨[], [], [], 1⟩

/-- The filesystem: `mtime p = none` means the file does not exist
(`os.path.exists` is false), `some m` its modification time. -/
structure FS where
  mtime : String → Option Nat

/-- `os.path.getmtime(p) if os.path.exists(p) else 0`, the idiom used
throughout the source. -/
def FS.mtimeD (fs : FS) (p : String) : Nat := (fs.mtime p).getD 0

/-- Python-level exceptions that the embedded code can raise. -/
inductive PyErr
  | integrityError
  | opError
  | typeError
deriving Repr, DecidableEq

/-- Rendering of an exception by `str(e)`, used where the source stores the
message of a caught exception. -/
def PyErr.str : PyErr → String
  | .integrityError => "IntegrityError"
  | .opError => "OperationalError"
  | .typeError => "TypeError"

/-- The kinds of sqlite executes inside a mutating store operation:
the primary `conversions` insert/update, the `processing_state` upsert and
the `content_hash_index` insert. -/
inductive SqlStep
  | primaryStep
  | stateStep
  | hashStep
deriving Repr, DecidableEq

/-- Failure oracle: which sqlite execute kinds raise an operational error
during one store call. -/
def Oracle : Type := SqlStep → Bool

/-- The oracle under which every sqlite execute succeeds. -/
def noFail : Oracle := fun _ => false

/-- The oracle under which exactly the `content_hash_index` insert raises. -/
def failHashStep : Oracle := fun s => s matches SqlStep.hashStep

/-- `SELECT 1 FROM conversions WHERE original_file_path = ?` is non-empty;
also decides the UNIQUE(original_file_path) violation on insert. -/
def pathExists (db : DB) (p : String) : Bool :=
  db.conversions.any (fun r => r.original_file_path == p)

/-- `INSERT OR REPLACE INTO processing_state` keyed by (file_path, run_id). -/
def upsertState (db : DB) (s : StateRow) : DB :=
  { db with processing_state :=
      (db.processing_state.filter
        (fun t => !(t.file_path == s.file_path && t.run_id == s.run_id))) ++ [s] }

/-- `INSERT OR IGNORE INTO content_hash_index (content_hash, file_path)`. -/
def insertHashIndex (db : DB) (h p : String) : DB :=
  if db.content_hash_index.contains (h, p) then db
  else { db with content_hash_index := db.content_hash_index ++ [(h, p)] }

/-- The row built by `add_conversion_record` before insertion
(`record_data` in the source, status "completed"). -/
def newCompletedRow (fs : FS) (db : DB) (p cogp : String) (blobp : Option String)
    (h : String) (bloburl : Option String) (rid : Option Nat) : ConversionRow :=
  { conversion_id := db.next_conversion_id
    original_file_path := p
    cog_file_path := cogp
    blob_path := blobp
    content_hash := h
    blob_url := bloburl
    status := "completed"
    duplicate_of_conversion_id := none
    duplicate_of_file_path := none
    is_duplicate := false
    error_message := none
    error_type := none
    run_id := rid
    file_modification_time := fs.mtimeD p }

/-- `SQLiteMetadataManager._update_existing_record`: update the row whose
source path is `p` with all of `row`'s fields except `conversion_id`
(the original identifier is preserved), then refresh the hash index for `p`
(DELETE all entries with this path, INSERT the new pair).  Runs in
autocommit mode; the failure-free path is modelled (only that path is
reached by the claims). -/
def update_existing_record (db : DB) (p : String) (row : ConversionRow) :
    Except PyErr ConversionRow × DB :=
  match db.conversions.find? (fun r => r.original_file_path == p) with
  | some existing =>
      -- the UPDATE sets only the columns present in the new record dict, so
      -- the identifier, duplicate-linkage and error columns of the existing
      -- row are untouched
      let updated := { row with
        conversion_id := existing.conversion_id
        duplicate_of_conversion_id := existing.duplicate_of_conversion_id
        duplicate_of_file_path := existing.duplicate_of_file_path
        error_message := existing.error_message
        error_type := existing.error_type }
      let conversions2 := db.conversions.map
        (fun r => if r.original_file_path == p then updated else r)
      let idx2 := (db.content_hash_index.filter (fun e => e.2 != p))
          ++ [(row.content_hash, p)]
      (Except.ok updated,
        { db with conversions := conversions2, content_hash_index := idx2 })
  | none => (Except.ok row, db)

/-- `SQLiteMetadataManager.add_conversion_record`.

Control flow of the source: `BEGIN TRANSACTION`; INSERT into `conversions`
(an IntegrityError rolls back and routes to `_update_existing_record`);
`_update_processing_state` (its own `except` rolls the whole transaction
back and re-raises, its success path COMMITS the enclosing transaction);
`_update_content_hash_index` (now in autocommit: a failure here is raised
after the insert and upsert were already committed); final `conn.commit()`
is a no-op.  The returned `DB` is the committed state after the call. -/
def add_conversion_record (oracle : Oracle) (fs : FS) (db : DB)
    (p cogp blobp h : String) (bloburl : Option String) (rid : Option Nat) :
    Except PyErr ConversionRow × DB :=
  let row := newCompletedRow fs db p cogp (some blobp) h bloburl rid
  if oracle .primaryStep then
    (Except.error .opError, db)
  else if pathExists db p then
    update_existing_record db p row
  else
    let pending : DB :=
      { db with
        conversions := db.conversions ++ [row]
        next_conversion_id := db.next_conversion_id + 1 }
    if oracle .stateStep then
      (Except.error .opError, db)
    else
      let committed := upsertState pending ⟨p, rid, "completed", h, fs.mtimeD p⟩
      if oracle .hashStep then
        (Except.error .opError, committed)
      else
        (Except.ok row, insertHashIndex committed h p)

/-- The row built by `add_failed_conversion` (status "failed", empty COG and
blob paths — the empty string, not NULL). -/
def newFailedRow (fs : FS) (db : DB) (p h msg : String)
    (etype : Option String) (rid : Option Nat) : ConversionRow :=
  { conversion_id := db.next_conversion_id
    original_file_path := p
    cog_file_path := ""
    blob_path := some ""
    content_hash := h
    blob_url := none
    status := "failed"
    duplicate_of_conversion_id := none
    duplicate_of_file_path := none
    is_duplicate := false
    error_message := some msg
    error_type := etype
    run_id := rid
    file_modification_time := fs.mtimeD p }

/-- `SQLiteMetadataManager.add_failed_conversion`.  Same transaction shape as
`add_conversion_record`, but its only handler is a generic
`except Exception: rollback; raise`, so a UNIQUE violation on the source
path propagates instead of being routed to an update. -/
def add_failed_conversion (oracle : Oracle) (fs : FS) (hashOf : String → String)
    (db : DB) (p msg : String) (etype : Option String) (rid : Option Nat) :
    Except PyErr ConversionRow × DB :=
  let h := hashOf p
  let row := newFailedRow fs db p h msg etype rid
  if oracle .primaryStep then
    (Except.error .opError, db)
  else if pathExists db p then
    (Except.error .integrityError, db)
  else
    let pending : DB :=
      { db with
        conversions := db.conversions ++ [row]
        next_conversion_id := db.next_conversion_id + 1 }
    if oracle .stateStep then
      (Except.error .opError, db)
    else
      let committed := upsertState pending ⟨p, rid, "failed", h, fs.mtimeD p⟩
      if oracle .hashStep then
        (Except.error .opError, committed)
      else
        (Except.ok row, insertHashIndex committed h p)

/-- Result of `get_existing_blob_for_content`. -/
structure BlobInfo where
  blob_path : Option String
  blob_url : Option String
  original_conversion_id : Nat
  original_file_path : String
deriving Repr, DecidableEq

/-- `SQLiteMetadataManager.get_existing_blob_for_content`:
`SELECT ... FROM conversions WHERE status = 'completed' AND content_hash = ?
AND blob_path IS NOT NULL LIMIT 1` in storage order.  Note the filter is
`IS NOT NULL`: a row whose blob path is the empty string qualifies. -/
def get_existing_blob_for_content (db : DB) (h : String) : Option BlobInfo :=
  (db.conversions.find? (fun r =>
      r.status == "completed" && r.content_hash == h && r.blob_path.isSome)).map
    (fun r => ⟨r.blob_path, r.blob_url, r.conversion_id, r.original_file_path⟩)

/-- The row built by `create_duplicate_reference`
(status "duplicate_referenced", linked to the existing record). -/
def newDuplicateRow (fs : FS) (db : DB) (p : String) (info : BlobInfo)
    (h : String) (rid : Option Nat) : ConversionRow :=
  { conversion_id := db.next_conversion_id
    original_file_path := p
    cog_file_path := ""
    blob_path := info.blob_path
    content_hash := h
    blob_url := info.blob_url
    status := "duplicate_referenced"
    duplicate_of_conversion_id := some info.original_conversion_id
    duplicate_of_file_path := some info.original_file_path
    is_duplicate := true
    error_message := none
    error_type := none
    run_id := rid
    file_modification_time := fs.mtimeD p }

/-- `SQLiteMetadataManager.create_duplicate_reference`.  Same transaction
shape as `add_failed_conversion`: its handler is a generic rollback-and-raise,
so a UNIQUE violation on the source path propagates. -/
def create_duplicate_reference (oracle : Oracle) (fs : FS) (db : DB)
    (p : String) (info : BlobInfo) (h : String) (rid : Option Nat) :
    Except PyErr ConversionRow × DB :=
  let row := newDuplicateRow fs db p info h rid
  if oracle .primaryStep then
    (Except.error .opError, db)
  else if pathExists db p then
    (Except.error .integrityError, db)
  else
    let pending : DB :=
      { db with
        conversions := db.conversions ++ [row]
        next_conversion_id := db.next_conversion_id + 1 }
    if oracle .stateStep then
      (Except.error .opError, db)
    else
      let committed :=
        upsertState pending ⟨p, rid, "duplicate_referenced", h, fs.mtimeD p⟩
      if oracle .hashStep then
        (Except.error .opError, committed)
      else
        (Except.ok row, insertHashIndex committed h p)

/-- `SQLiteMetadataManager.is_duplicate_content`:
`SELECT COUNT(*) FROM content_hash_index WHERE content_hash = ? AND
file_path != ?`, returning whether the count is at least 1. -/
def is_duplicate_content (db : DB) (h p : String) : Bool :=
  decide (1 ≤ db.content_hash_index.countP (fun e => e.1 == h && e.2 != p))

/-- `SQLiteMetadataManager.handle_duplicate_file`.  The existing-artifact
lookup gates every strategy; "reference" creates the linking record,
"skip" upserts a "skipped" processing state (a standalone, self-committing
execute), "process" and any unknown strategy (including "warn") return
false without writing. -/
def handle_duplicate_file (oracle : Oracle) (fs : FS) (db : DB)
    (p h strategy : String) (rid : Option Nat) : Except PyErr Bool × DB :=
  match get_existing_blob_for_content db h with
  | none => (Except.ok false, db)
  | some info =>
    if strategy == "reference" then
      match create_duplicate_reference oracle fs db p info h rid with
      | (Except.ok _, db2) => (Except.ok true, db2)
      | (Except.error e, db2) => (Except.error e, db2)
    else if strategy == "skip" then
      if oracle .stateStep then (Except.error .opError, db)
      else (Except.ok true, upsertState db ⟨p, rid, "skipped", h, fs.mtimeD p⟩)
    else if strategy == "process" then (Except.ok false, db)
    else (Except.ok false, db)

/-- `SQLiteMetadataManager._get_processing_state`: first `processing_state`
row (any run) whose file path matches. -/
def get_processing_state (db : DB) (p : String) : Option StateRow :=
  db.processing_state.find? (fun s => s.file_path == p)

/-- `SQLiteMetadataManager._update_processing_state_for_run`: UPDATE the
(path, run) row if present (keeping its content hash), INSERT it otherwise. -/
def update_processing_state_for_run (db : DB) (p h status : String)
    (m : Nat) (rid : Nat) : DB :=
  if db.processing_state.any
      (fun s => s.file_path == p && s.run_id == some rid) then
    { db with processing_state := db.processing_state.map (fun s =>
        if s.file_path == p && s.run_id == some rid then
          { s with status := status, file_modification_time := m }
        else s) }
  else
    { db with processing_state :=
        db.processing_state ++ [⟨p, some rid, status, h, m⟩] }

/-- `SQLiteMetadataManager.should_process_file`.  Returns the decision and
the (possibly updated) store: on an unchanged, successfully processed file
with a truthy current run id, the state is re-stamped "skipped" for that
run as a side effect. -/
def should_process_file (fs : FS) (db : DB) (p : String) (force : Bool)
    (current_run_id : Option Nat) : Bool × DB :=
  if force then (true, db)
  else
    match fs.mtime p with
    | none => (false, db)
    | some current_mtime =>
      match get_processing_state db p with
      | none => (true, db)
      | some st =>
        if current_mtime > st.file_modification_time then (true, db)
        else if st.status == "completed" || st.status == "duplicate_referenced"
            || st.status == "skipped" then
          match current_run_id with
          | some rid =>
            if rid != 0 then
              (false, update_processing_state_for_run db p st.content_hash
                "skipped" current_mtime rid)
            else (false, db)
          | none => (false, db)
        else (true, db)

/-- `SQLiteMetadataManager.mark_file_failed`: standalone state upsert and
hash-index insert (each self-committing), then `add_failed_conversion` with
error type "processing_failed"; any exception from the latter propagates. -/
def mark_file_failed (oracle : Oracle) (fs : FS) (hashOf : String → String)
    (db : DB) (p msg : String) : Except PyErr Unit × DB :=
  let h := hashOf p
  if oracle .stateStep then (Except.error .opError, db)
  else
    let db1 := upsertState db ⟨p, none, "failed", h, fs.mtimeD p⟩
    if oracle .hashStep then (Except.error .opError, db1)
    else
      let db2 := insertHashIndex db1 h p
      match add_failed_conversion oracle fs hashOf db2 p msg
          (some "processing_failed") none with
      | (Except.ok _, db3) => (Except.ok (), db3)
      | (Except.error e, db3) => (Except.error e, db3)

/-! ### The JSON-backed store (`metadata_manager.py`) -/

/-- The JSON metadata structure, restricted to the field the claims need:
`content_hash_index` is a dict from content hash to the list of file paths. -/
structure JsonMeta where
  content_hash_index : List (String × List String)
deriving Repr, DecidableEq

/-- Dict lookup `metadata["content_hash_index"].get(h)`. -/
def jsonLookupHash (m : JsonMeta) (h : String) : Option (List String) :=
  (m.content_hash_index.find? (fun e => e.1 == h)).map (fun e => e.2)

/-- `ConversionMetadataManager.is_duplicate_content`: false when the hash is
absent, false when at most one path is indexed under it, true otherwise.
The `file_path` argument is received but never consulted. -/
def json_is_duplicate_content (m : JsonMeta) (h p : String) : Bool :=
  match jsonLookupHash m h with
  | none => false
  | some files => decide (1 < files.length)

/-- The spec's predicate (section 4.1): true iff the hash index contains any
(hash, path) entry for `h` whose path is not `p`. -/
def spec_is_duplicate (idx : List (String × String)) (h p : String) : Bool :=
  idx.any (fun e => e.1 == h && e.2 != p)

/-! ### The orchestrator filter (`engine.py`) -/

/-- Keyword parameters accepted by
`SQLiteMetadataManager.should_process_file(self, file_path, force=False,
current_run_id=None)` when `file_path` is passed positionally. -/
def sqlite_should_process_file_kwargs : List String :=
  ["force", "current_run_id"]

/-- Keyword arguments passed at the call site in
`ConversionEngine._filter_files_for_processing` (engine.py line 157):
`should_process_file(file_path, skip_already_processed=skip_already_processed)`. -/
def engine_filter_call_kwargs : List String :=
  ["skip_already_processed"]

/-- Python call binding: every keyword argument must name a parameter,
otherwise the call raises TypeError. -/
def kwargs_accepted (passed accepted : List String) : Bool :=
  passed.all (fun k => accepted.contains k)

/-- `ConversionEngine._filter_files_for_processing`, keyed on the three
configuration flags it reads and on whether a metadata manager is attached.
For each file: `force_reprocess` keeps it without consulting the store;
otherwise, with a manager and `skip_already_processed` set, the engine calls
`should_process_file` with the keyword `skip_already_processed`, which the
manager's signature does not accept — the binding check decides whether that
call raises; otherwise the file is kept. -/
def filter_files_for_processing
    (force_reprocess skip_already_processed has_metadata : Bool) :
    List String → Except PyErr (List String)
  | [] => Except.ok []
  | f :: rest =>
    if force_reprocess then
      (filter_files_for_processing force_reprocess skip_already_processed
        has_metadata rest).map (fun l => f :: l)
    else if has_metadata && skip_already_processed then
      if kwargs_accepted engine_filter_call_kwargs
          sqlite_should_process_file_kwargs then
        -- never reached: the keyword is not among the accepted parameters
        (filter_files_for_processing force_reprocess skip_already_processed
          has_metadata rest).map (fun l => f :: l)
      else Except.error .typeError
    else
      (filter_files_for_processing force_reprocess skip_already_processed
        has_metadata rest).map (fun l => f :: l)

/-! ### The pipeline (`pipeline.py`) -/

/-- The statistics counters of `ConversionPipeline._initialize_stats`. -/
structure Stats where
  total_files : Nat
  successful : Nat
  failed : Nat
  skipped : Nat
  retries : Nat
  uploaded : Nat
  upload_failed : Nat
  duplicates_referenced : Nat
deriving Repr, DecidableEq

/-- All counters zero, as `_initialize_stats` returns. -/
def Stats.init : Stats := ⟨0, 0, 0, 0, 0, 0, 0, 0⟩

/-- Observable events of one `process_file` call, in order: a duplicate
check against the content-hash index, one `converter.convert` call, a retry
sleep, an upload call, a completed conversion record being written. -/
inductive Ev
  | dupCheck
  | convertAttempt
  | sleepEv (d : Nat)
  | uploadCall
  | recordCompleted
deriving Repr, DecidableEq

/-- The pipeline configuration keys `process_file` and its helpers read. -/
structure Cfg where
  metadata_enabled : Bool
  storage_enabled : Bool
  detect_duplicates : Bool
  duplicate_strategy : String
  max_retries : Nat
  retry_delay : Nat
  preserve_local_cogs : Bool
deriving Repr, DecidableEq

/-- Outcome of one `converter.convert(file_path, output_path)` call:
returned True, returned False, or raised an exception with a message. -/
inductive AttemptRes
  | ok
  | failedRes
  | raised (msg : String)
deriving Repr, DecidableEq

/-- Result of the retry loop in `process_file`: whether conversion
succeeded, how many convert calls were made, how many retries were logged,
the sleeps performed, and the exception message when retries were
exhausted. -/
structure LoopOut where
  success : Bool
  calls : Nat
  retries : Nat
  sleeps : List Nat
  terminal : Option String
deriving Repr, DecidableEq

/-- The `while attempt <= self.error_handler.max_retries` loop of
`process_file`.  `b i` is the outcome of the i-th convert call, `delay` the
fixed retry delay, `remaining` the number of retries still allowed
(`max_retries` on entry), `i`/`r`/`sl` the call, retry and sleep
accumulators. -/
def convert_loop (b : Nat → AttemptRes) (delay : Nat) :
    Nat → Nat → Nat → List Nat → LoopOut
  | 0, i, r, sl =>
    -- no retries left: a True/False return is terminal as always, and an
    -- exception makes `attempt` exceed `max_retries` (terminal failure)
    match b i with
    | .ok => ⟨true, i + 1, r, sl, none⟩
    | .failedRes => ⟨false, i + 1, r, sl, none⟩
    | .raised m => ⟨false, i + 1, r, sl, some m⟩
  | rem + 1, i, r, sl =>
    match b i with
    | .ok => ⟨true, i + 1, r, sl, none⟩
    | .failedRes => ⟨false, i + 1, r, sl, none⟩
    | .raised _ => convert_loop b delay rem (i + 1) (r + 1) (sl ++ [delay])

/-- `ConversionPipeline._should_skip_duplicate`: the pre-conversion
duplicate check.  Returns (skip?, stats, db, events).  Every exception inside
is caught and treated as "do not skip"; a successful "reference" handling
increments `duplicates_referenced`, a "skip" strategy increments `skipped`;
"warn" and "process" fall through. -/
def should_skip_duplicate (cfg : Cfg) (oracle : Oracle) (fs : FS)
    (hashOf : String → String) (db : DB) (stats : Stats) (p : String)
    (rid : Option Nat) : Bool × Stats × DB × List Ev :=
  if !cfg.metadata_enabled then (false, stats, db, [])
  else if !cfg.detect_duplicates then (false, stats, db, [])
  else
    let h := hashOf p
    if is_duplicate_content db h p then
      if cfg.duplicate_strategy == "reference" then
        match handle_duplicate_file oracle fs db p h cfg.duplicate_strategy rid with
        | (Except.ok true, db2) =>
          (true,
            { stats with duplicates_referenced := stats.duplicates_referenced + 1 },
            db2, [Ev.dupCheck])
        | (Except.ok false, db2) => (false, stats, db2, [Ev.dupCheck])
        | (Except.error _, db2) => (false, stats, db2, [Ev.dupCheck])
      else if cfg.duplicate_strategy == "skip" then
        (true, { stats with skipped := stats.skipped + 1 }, db, [Ev.dupCheck])
      else (false, stats, db, [Ev.dupCheck])
    else (false, stats, db, [Ev.dupCheck])

/-- `ConversionPipeline._should_handle_duplicate_after_conversion`: the
post-conversion duplicate check (run before upload and recording).  Same
shape as the pre-check but with no "warn" branch. -/
def should_handle_duplicate_after (cfg : Cfg) (oracle : Oracle) (fs : FS)
    (hashOf : String → String) (db : DB) (stats : Stats) (p : String)
    (rid : Option Nat) : Bool × Stats × DB × List Ev :=
  if !cfg.metadata_enabled then (false, stats, db, [])
  else if !cfg.detect_duplicates then (false, stats, db, [])
  else
    let h := hashOf p
    if is_duplicate_content db h p then
      if cfg.duplicate_strategy == "reference" then
        match handle_duplicate_file oracle fs db p h cfg.duplicate_strategy rid with
        | (Except.ok true, db2) =>
          (true,
            { stats with duplicates_referenced := stats.duplicates_referenced + 1 },
            db2, [Ev.dupCheck])
        | (Except.ok false, db2) => (false, stats, db2, [Ev.dupCheck])
        | (Except.error _, db2) => (false, stats, db2, [Ev.dupCheck])
      else if cfg.duplicate_strategy == "skip" then
        (true, { stats with skipped := stats.skipped + 1 }, db, [Ev.dupCheck])
      else (false, stats, db, [Ev.dupCheck])
    else (false, stats, db, [Ev.dupCheck])

/-- The upload collaborator's result
(`BlobStorageUploader.upload_with_metadata`; timestamp omitted). -/
structure UploadResult where
  blob_path : String
  blob_url : String
  content_hash : String
deriving Repr, DecidableEq

/-- `create_conversion_record_from_upload`: hash the original file and add a
completed record whose COG path is the original path (as in the source) and
whose blob fields come from the upload result. -/
def create_conversion_record_from_upload (oracle : Oracle) (fs : FS)
    (hashOf : String → String) (db : DB) (p : String) (r : UploadResult)
    (rid : Option Nat) : Except PyErr ConversionRow × DB :=
  add_conversion_record oracle fs db p p r.blob_path (hashOf p)
    (some r.blob_url) rid

/-- `create_conversion_record` (metadata-only path): hash the original file
and add a completed record with empty blob path and no URL. -/
def create_conversion_record (oracle : Oracle) (fs : FS)
    (hashOf : String → String) (db : DB) (p cogp : String) (rid : Option Nat) :
    Except PyErr ConversionRow × DB :=
  add_conversion_record oracle fs db p cogp "" (hashOf p) none rid

/-- Result of one `process_file` call: the returned value (or the exception
that escaped), the final statistics, the committed store and the event
trace. -/
structure PFOut where
  result : Except PyErr Bool
  stats : Stats
  db : DB
  trace : List Ev
deriving Repr

/-- `ConversionPipeline._handle_post_conversion`: post-conversion duplicate
check, then upload; on upload success the completed record is written (a
metadata failure there is caught by the same handler as an upload failure);
on upload (or recording) failure `upload_failed` is incremented and a failed
record with error type "upload_failure" is added (an exception from that
recording propagates). -/
def handle_post_conversion (cfg : Cfg) (oracle : Oracle) (fs : FS)
    (hashOf : String → String) (upload : Except String UploadResult)
    (db : DB) (stats : Stats) (p : String) (rid : Option Nat)
    (tr : List Ev) : PFOut :=
  if !(cfg.storage_enabled && cfg.metadata_enabled) then
    ⟨Except.ok false, stats, db, tr⟩
  else
    let sd := should_handle_duplicate_after cfg oracle fs hashOf db stats p rid
    if sd.1 then ⟨Except.ok true, sd.2.1, sd.2.2.1, tr ++ sd.2.2.2⟩
    else
      let stats1 := sd.2.1
      let db1 := sd.2.2.1
      let tr1 := tr ++ sd.2.2.2 ++ [Ev.uploadCall]
      match upload with
      | Except.ok r =>
        let stats2 := { stats1 with uploaded := stats1.uploaded + 1 }
        match create_conversion_record_from_upload oracle fs hashOf db1 p r rid with
        | (Except.ok _, db2) =>
          ⟨Except.ok true, stats2, db2, tr1 ++ [Ev.recordCompleted]⟩
        | (Except.error e, db2) =>
          let stats3 := { stats2 with upload_failed := stats2.upload_failed + 1 }
          match add_failed_conversion oracle fs hashOf db2 p (PyErr.str e)
              (some "upload_failure") none with
          | (Except.ok _, db3) => ⟨Except.ok false, stats3, db3, tr1⟩
          | (Except.error e2, db3) => ⟨Except.error e2, stats3, db3, tr1⟩
      | Except.error msg =>
        let stats2 := { stats1 with upload_failed := stats1.upload_failed + 1 }
        match add_failed_conversion oracle fs hashOf db1 p msg
            (some "upload_failure") none with
        | (Except.ok _, db2) => ⟨Except.ok false, stats2, db2, tr1⟩
        | (Except.error e2, db2) => ⟨Except.error e2, stats2, db2, tr1⟩

/-- `ConversionPipeline._handle_metadata_only`: post-conversion duplicate
check, then the completed record (no upload); a metadata failure is caught
and recorded as a failed conversion with error type "metadata_failure". -/
def handle_metadata_only (cfg : Cfg) (oracle : Oracle) (fs : FS)
    (hashOf : String → String) (db : DB) (stats : Stats) (p cogp : String)
    (rid : Option Nat) (tr : List Ev) : PFOut :=
  if !cfg.metadata_enabled then ⟨Except.ok false, stats, db, tr⟩
  else
    let sd := should_handle_duplicate_after cfg oracle fs hashOf db stats p rid
    if sd.1 then ⟨Except.ok true, sd.2.1, sd.2.2.1, tr ++ sd.2.2.2⟩
    else
      let stats1 := sd.2.1
      let db1 := sd.2.2.1
      let tr1 := tr ++ sd.2.2.2
      match create_conversion_record oracle fs hashOf db1 p cogp rid with
      | (Except.ok _, db2) =>
        ⟨Except.ok true, stats1, db2, tr1 ++ [Ev.recordCompleted]⟩
      | (Except.error e, db2) =>
        match add_failed_conversion oracle fs hashOf db2 p (PyErr.str e)
            (some "metadata_failure") none with
        | (Except.ok _, db3) => ⟨Except.ok false, stats1, db3, tr1⟩
        | (Except.error e2, db3) => ⟨Except.error e2, stats1, db3, tr1⟩

/-- `ConversionPipeline.process_file`.  Parameters: the config, the sqlite
failure oracle, the filesystem, the content-hash function, which files some
converter `can_handle`, the outcome of each convert call, the upload
collaborator's behaviour, the store, the statistics so far, the file and the
run id.  Mirrors the source: count the file; pre-conversion duplicate check;
converter lookup; retry loop (exceptions retried with a sleep, a False
return terminal with no retry); on terminal exception, `mark_file_failed`
when metadata is on; on success, post-conversion handling per the
storage/metadata flags. -/
def process_file (cfg : Cfg) (oracle : Oracle) (fs : FS)
    (hashOf : String → String) (can_handle : String → Bool)
    (conv : Nat → AttemptRes) (upload : Except String UploadResult)
    (db : DB) (stats0 : Stats) (p : String) (rid : Option Nat) : PFOut :=
  let stats := { stats0 with total_files := stats0.total_files + 1 }
  let sd := should_skip_duplicate cfg oracle fs hashOf db stats p rid
  if sd.1 then ⟨Except.ok false, sd.2.1, sd.2.2.1, sd.2.2.2⟩
  else
    let stats1 := sd.2.1
    let db1 := sd.2.2.1
    let tr1 := sd.2.2.2
    if !can_handle p then
      ⟨Except.ok false, { stats1 with skipped := stats1.skipped + 1 }, db1, tr1⟩
    else
      let lo := convert_loop conv cfg.retry_delay cfg.max_retries 0 0 []
      let tr2 := tr1 ++ List.replicate lo.calls Ev.convertAttempt
        ++ lo.sleeps.map Ev.sleepEv
      match lo.terminal with
      | some m =>
        let stats2 :=
          { stats1 with
            failed := stats1.failed + 1
            retries := stats1.retries + lo.retries }
        if cfg.metadata_enabled then
          match mark_file_failed oracle fs hashOf db1 p m with
          | (Except.ok _, db2) => ⟨Except.ok false, stats2, db2, tr2⟩
          | (Except.error e, db2) => ⟨Except.error e, stats2, db2, tr2⟩
        else ⟨Except.ok false, stats2, db1, tr2⟩
      | none =>
        if !lo.success then
          let stats2 :=
            { stats1 with
              failed := stats1.failed + 1
              retries := stats1.retries + lo.retries }
          ⟨Except.ok false, stats2, db1, tr2⟩
        else
          let stats2 :=
            { stats1 with
              successful := stats1.successful + 1
              retries := stats1.retries + lo.retries }
          if cfg.storage_enabled then
            handle_post_conversion cfg oracle fs hashOf upload db1 stats2 p rid tr2
          else if cfg.metadata_enabled then
            handle_metadata_only cfg oracle fs hashOf db1 stats2 p
              (p ++ ".cog.tif") rid tr2
          else ⟨Except.ok true, stats2, db1, tr2⟩

/-! ### Reference decisions written from the spec (for refinement claims) -/

/-- The reprocessing decision exactly as the spec states it (section 4.3):
`force` always processes; a never-seen path processes; a strictly newer
modification time processes; last status completed/duplicate_referenced/
skipped skips; any other last status is retried. -/
def spec_reference_decision (force : Bool) (st : Option StateRow)
    (current_mtime : Nat) : Bool :=
  if force then true
  else
    match st with
    | none => true
    | some s =>
      if s.file_modification_time < current_mtime then true
      else if s.status == "completed" || s.status == "duplicate_referenced"
          || s.status == "skipped" then false
      else true

/-! ### Concrete fixtures used by the closed theorems -/

/-- A filesystem with no files. -/
def fs0 : FS := ⟨fun _ => none⟩

/-- A filesystem holding exactly `a.tif`, with modification time 5. -/
def fsA : FS := ⟨fun p => if p == "a.tif" then some 5 else none⟩

/-- A content-hash function assigning every file the hash "h". -/
def hashH : String → String := fun _ => "h"

/-- Every file has a converter. -/
def chAll : String → Bool := fun _ => true

/-- A converter behaviour that raises on its first two calls and succeeds on
the third. -/
def convRaise2 : Nat → AttemptRes :=
  fun i => if i < 2 then AttemptRes.raised "boom" else AttemptRes.ok

/-- A converter behaviour that returns a clean False on every call. -/
def convFalse : Nat → AttemptRes := fun _ => AttemptRes.failedRes

/-- A converter behaviour that succeeds immediately. -/
def convOk : Nat → AttemptRes := fun _ => AttemptRes.ok

/-- An upload collaborator that raises. -/
def upErr : Except String UploadResult := Except.error "neterr"

/-- Pipeline configuration: metadata on, storage off, duplicate detection on
with strategy "skip", max_retries 3, retry delay 5. -/
def cfgPre : Cfg := ⟨true, false, true, "skip", 3, 5, false⟩

/-- Pipeline configuration: metadata and storage off (pure conversion),
max_retries 3, retry delay 5. -/
def cfgRetry : Cfg := ⟨false, false, true, "skip", 3, 5, false⟩

/-- Pipeline configuration: metadata and storage on, duplicate detection
off, max_retries 3, retry delay 5. -/
def cfgUpload : Cfg := ⟨true, true, false, "reference", 3, 5, false⟩

/-- A completed conversion record for path "p" with hash "h" and a non-empty
blob path. -/
def rowP : ConversionRow :=
  { conversion_id := 1, original_file_path := "p", cog_file_path := "p.cog"
    blob_path := some "b", content_hash := "h", blob_url := some "u"
    status := "completed", duplicate_of_conversion_id := none
    duplicate_of_file_path := none, is_duplicate := false
    error_message := none, error_type := none, run_id := none
    file_modification_time := 0 }

/-- A store whose only completed record carrying hash "h" is the record for
path "p" itself. -/
def dbSelf : DB := ⟨[rowP], [⟨"p", none, "completed", "h", 0⟩], [("h", "p")], 2⟩

/-- A completed record for path "q" with hash "h" whose blob path is the
empty string (not NULL). -/
def rowQ : ConversionRow := { rowP with original_file_path := "q", blob_path := some "" }

/-- A store whose only completed record with hash "h" has an empty-string
blob path. -/
def dbQ : DB := ⟨[rowQ], [], [("h", "q")], 2⟩

/-- A completed conversion record for path "a.tif" with hash "old". -/
def rowA : ConversionRow :=
  { rowP with original_file_path := "a.tif", content_hash := "old" }

/-- A store with an existing conversion record for "a.tif" (hash "old"). -/
def dbA : DB := ⟨[rowA], [], [("old", "a.tif")], 2⟩

/-- A store whose hash index already lists "other.tif" under hash "h",
with no conversion records at all. -/
def dbIdx : DB := ⟨[], [], [("h", "other.tif")], 1⟩

/-- A store holding a completed record for "q" (hash "h", blob "b"),
with its hash-index entry. -/
def dbDone : DB :=
  ⟨[{ rowP with original_file_path := "q" }],
    [⟨"q", none, "completed", "h", 0⟩], [("h", "q")], 2⟩

/-- The JSON store whose hash index lists exactly one path "q" under "h". -/
def jm1 : JsonMeta := ⟨[("h", ["q"])]⟩

end CogConv
namespace CogConv

/-! ### Helper lemmas -/

/-- `upsertState` leaves the `conversions` table untouched. -/
theorem upsertState_conversions (db : DB) (s : StateRow) :
    (upsertState db s).conversions = db.conversions := rfl

/-- `insertHashIndex` leaves the `conversions` table untouched. -/
theorem insertHashIndex_conversions (db : DB) (h p : String) :
    (insertHashIndex db h p).conversions = db.conversions := by
  unfold insertHashIndex; split <;> rfl

/-- A successful existing-artifact lookup comes from a completed row of the
table with that hash. -/
theorem get_existing_blob_spec (db : DB) (h : String) (info : BlobInfo) :
    get_existing_blob_for_content db h = some info →
    ∃ r ∈ db.conversions, r.status = "completed" ∧ r.content_hash = h
      ∧ r.conversion_id = info.original_conversion_id
      ∧ r.original_file_path = info.original_file_path := by
  unfold get_existing_blob_for_content
  intro hm
  rcases Option.map_eq_some'.mp hm with ⟨r, hfind, hr⟩
  have hmem := List.mem_of_find?_eq_some hfind
  have hpred := List.find?_some hfind
  simp only [Bool.and_eq_true, beq_iff_eq] at hpred
  refine ⟨r, hmem, hpred.1.1, hpred.1.2, ?_, ?_⟩
  · rw [← hr]
  · rw [← hr]

/-- `decide (1 ≤ countP f l)` is `l.any f`. -/
theorem countP_pos_eq_any {α : Type} (f : α → Bool) (l : List α) :
    decide (1 ≤ l.countP f) = l.any f := by
  induction l with
  | nil => rfl
  | cons a t ih =>
    cases hfa : f a
    · simp only [List.countP_cons, hfa, if_false, Nat.add_zero, List.any_cons,
        Bool.false_or]
      exact ih
    · have h1 : 1 ≤ t.countP f + 1 := Nat.succ_le_succ (Nat.zero_le _)
      simp only [List.countP_cons, hfa, if_true, List.any_cons, Bool.true_or]
      exact decide_eq_true h1

/-- Accumulator invariants of the retry loop: the retry counter only grows,
grows by at most the remaining retry budget, and every retry appends exactly
one sleep of the fixed delay. -/
theorem convert_loop_acc (b : Nat → AttemptRes) (d : Nat) :
    ∀ (remaining i r : Nat) (sl : List Nat),
      r ≤ (convert_loop b d remaining i r sl).retries
      ∧ (convert_loop b d remaining i r sl).retries ≤ r + remaining
      ∧ (convert_loop b d remaining i r sl).sleeps
          = sl ++ List.replicate ((convert_loop b d remaining i r sl).retries - r) d := by
  intro remaining
  induction remaining with
  | zero =>
    intro i r sl
    cases hb : b i <;> simp [convert_loop, hb]
  | succ rem ih =>
    intro i r sl
    cases hb : b i
    · simp [convert_loop, hb]
    · simp [convert_loop, hb]
    · rename_i m
      simp only [convert_loop, hb]
      obtain ⟨ha, hbnd, hsl⟩ := ih (i + 1) (r + 1) (sl ++ [d])
      refine ⟨by omega, by omega, ?_⟩
      rw [hsl]
      have hr : (convert_loop b d rem (i + 1) (r + 1) (sl ++ [d])).retries - r
          = ((convert_loop b d rem (i + 1) (r + 1) (sl ++ [d])).retries - (r + 1)) + 1 := by
        omega
      rw [hr, List.replicate_succ, List.append_assoc, List.singleton_append]

/-- Every convert call except possibly the last one raised: retries happen
only after an exception. -/
theorem convert_loop_raised_before (b : Nat → AttemptRes) (d : Nat) :
    ∀ (remaining i r : Nat) (sl : List Nat) (j : Nat),
      i ≤ j → j + 1 < (convert_loop b d remaining i r sl).calls →
      ∃ m, b j = AttemptRes.raised m := by
  intro remaining
  induction remaining with
  | zero =>
    intro i r sl j hij hj
    have hc : (convert_loop b d 0 i r sl).calls = i + 1 := by
      cases hb : b i <;> simp [convert_loop, hb]
    exfalso; omega
  | succ rem ih =>
    intro i r sl j hij hj
    cases hb : b i
    · simp only [convert_loop, hb] at hj; exfalso; omega
    · simp only [convert_loop, hb] at hj; exfalso; omega
    · rename_i m
      simp only [convert_loop, hb] at hj
      by_cases hji : j = i
      · exact ⟨m, hji ▸ hb⟩
      · exact ih (i + 1) (r + 1) (sl ++ [d]) j (by omega) hj

/-- A first call returning a clean False terminates the loop at once. -/
theorem convert_loop_fail_first (b : Nat → AttemptRes) (d remaining : Nat)
    (hb : b 0 = AttemptRes.failedRes) :
    convert_loop b d remaining 0 0 [] = ⟨false, 1, 0, [], none⟩ := by
  cases remaining <;> simp [convert_loop, hb]

/-- A first call returning True terminates the loop at once with success. -/
theorem convert_loop_ok_first (b : Nat → AttemptRes) (d remaining : Nat)
    (hb : b 0 = AttemptRes.ok) :
    convert_loop b d remaining 0 0 [] = ⟨true, 1, 0, [], none⟩ := by
  cases remaining <;> simp [convert_loop, hb]

/-- With duplicate detection on, the pre-conversion duplicate check emits
exactly one duplicate-check event. -/
theorem should_skip_duplicate_trace (cfg : Cfg) (oracle : Oracle) (fs : FS)
    (hashOf : String → String) (db : DB) (stats : Stats) (p : String)
    (rid : Option Nat) (hM : cfg.metadata_enabled = true)
    (hD : cfg.detect_duplicates = true) :
    (should_skip_duplicate cfg oracle fs hashOf db stats p rid).2.2.2 = [Ev.dupCheck] := by
  unfold should_skip_duplicate
  rw [hM, hD]
  simp only [Bool.not_true, Bool.false_eq_true, if_false]
  split
  · split
    · split <;> rfl
    · split <;> rfl
  · rfl

/-- The post-conversion handler only appends to the trace it is given. -/
theorem handle_post_conversion_trace (cfg : Cfg) (oracle : Oracle) (fs : FS)
    (hashOf : String → String) (upload : Except String UploadResult)
    (db : DB) (stats : Stats) (p : String) (rid : Option Nat) (tr : List Ev) :
    ∃ s, (handle_post_conversion cfg oracle fs hashOf upload db stats p rid tr).trace
      = tr ++ s := by
  simp only [handle_post_conversion]
  repeat' split
  all_goals first
  | exact ⟨[], (List.append_nil tr).symm⟩
  | exact ⟨_, rfl⟩
  | (simp only [List.append_assoc]; exact ⟨_, rfl⟩)

/-- The metadata-only handler only appends to the trace it is given. -/
theorem handle_metadata_only_trace (cfg : Cfg) (oracle : Oracle) (fs : FS)
    (hashOf : String → String) (db : DB) (stats : Stats) (p cogp : String)
    (rid : Option Nat) (tr : List Ev) :
    ∃ s, (handle_metadata_only cfg oracle fs hashOf db stats p cogp rid tr).trace
      = tr ++ s := by
  simp only [handle_metadata_only]
  repeat' split
  all_goals first
  | exact ⟨[], (List.append_nil tr).symm⟩
  | exact ⟨_, rfl⟩
  | (simp only [List.append_assoc]; exact ⟨_, rfl⟩)

end CogConv
namespace CogConv

/-- C2: recording a success is not atomic.  On the empty store, when the
content-hash-index insert fails after the processing-state upsert committed,
`add_conversion_record` raises, yet the committed store now holds the new
conversions row and processing-state row with no hash-index entry — not the
pre-call state. -/
theorem add_conversion_record_partial_commit :
    (add_conversion_record failHashStep fs0 DB.empty "a.tif" "out.tif" "bp" "h" none none).1
        = Except.error PyErr.opError
    ∧ (add_conversion_record failHashStep fs0 DB.empty "a.tif" "out.tif" "bp" "h" none none).2.conversions.length
        = 1
    ∧ (add_conversion_record failHashStep fs0 DB.empty "a.tif" "out.tif" "bp" "h" none none).2.processing_state.length
        = 1
    ∧ (add_conversion_record failHashStep fs0 DB.empty "a.tif" "out.tif" "bp" "h" none none).2.content_hash_index
        = []
    ∧ DB.empty.conversions.length = 0
    ∧ DB.empty.processing_state.length = 0 :=
  ⟨rfl, rfl, rfl, rfl, rfl, rfl⟩

/-- C4: the engine filter calls `should_process_file` with the keyword
argument `skip_already_processed`, which the manager does not accept, so on
any run over a nonempty file list with a metadata manager attached,
`skip_already_processed` on and `force_reprocess` off, the filter raises
TypeError instead of producing a skipped/kept partition. -/
theorem filter_files_keyword_call_raises :
    kwargs_accepted engine_filter_call_kwargs sqlite_should_process_file_kwargs = false
    ∧ filter_files_for_processing false true true ["a.tif"]
        = Except.error PyErr.typeError :=
  ⟨rfl, rfl⟩

/-- C8 counterexample: the JSON manager's duplicate check does not match
"the index contains an entry for the hash whose path differs from the
query path": with the index holding exactly the path "q" under hash "h",
the check for path "p" returns false although "q" is an entry for "h"
different from "p". -/
theorem json_is_duplicate_content_cex :
    json_is_duplicate_content jm1 "h" "p" = false
    ∧ (jsonLookupHash jm1 "h").getD [] = ["q"]
    ∧ ("q" == "p") = false
    ∧ spec_is_duplicate [("h", "q")] "h" "p" = true :=
  ⟨rfl, rfl, rfl, rfl⟩

/-- C8 (amended): the SQLite duplicate check equals the spec predicate
(some index entry for the hash has a different path); the JSON manager's
check instead returns true iff at least two paths are indexed under the
hash, independently of the excluded path. -/
theorem is_duplicate_content_characterization :
    (∀ (db : DB) (h p : String),
      is_duplicate_content db h p = spec_is_duplicate db.content_hash_index h p)
    ∧ (∀ (m : JsonMeta) (h p : String),
      json_is_duplicate_content m h p
        = decide (2 ≤ ((jsonLookupHash m h).getD []).length)) := by
  constructor
  · intro db h p
    unfold is_duplicate_content spec_is_duplicate
    exact countP_pos_eq_any _ _
  · intro m h p
    unfold json_is_duplicate_content
    cases hm : jsonLookupHash m h
    · rfl
    · rfl

/-- C5 counterexample: for a path that does not exist on disk and has no
processing state, the code returns false (skip) while the spec's reference
decision is to process a never-seen path. -/
theorem should_process_file_missing_file_cex :
    (should_process_file fs0 DB.empty "a.tif" false none).1 = false
    ∧ spec_reference_decision false (get_processing_state DB.empty "a.tif") 0 = true :=
  ⟨rfl, rfl⟩

/-- C5 (amended): whenever the file exists, `should_process_file` computes
exactly the spec's reference decision on (force, recorded state, current
modification time); when the file does not exist the code instead returns
`force` (false without force, true with it). -/
theorem should_process_file_matches_reference_decision :
    ∀ (fs : FS) (db : DB) (p : String) (force : Bool) (rid : Option Nat),
      (∀ m, fs.mtime p = some m →
        (should_process_file fs db p force rid).1
          = spec_reference_decision force (get_processing_state db p) m)
      ∧ (fs.mtime p = none → (should_process_file fs db p force rid).1 = force) := by
  intro fs db p force rid
  constructor
  · intro m hm
    unfold should_process_file spec_reference_decision
    cases force
    · simp only [Bool.false_eq_true, if_false, hm]
      cases hst : get_processing_state db p
      · rfl
      · rename_i s
        by_cases hmt : s.file_modification_time < m
        · simp [hmt]
        · simp only [gt_iff_lt, hmt, if_false]
          split
          · cases rid
            · rfl
            · rename_i n
              by_cases hn : (n != 0) = true <;> simp [hn]
          · rfl
    · rfl
  · intro hm
    unfold should_process_file
    cases force
    · simp [hm]
    · rfl

end CogConv
namespace CogConv

/-- C5 witness: the amended equivalence evaluated at a present file and at a
missing file. -/
theorem should_process_file_matches_reference_decision_witness :
    (should_process_file fsA DB.empty "a.tif" false none).1
        = spec_reference_decision false (get_processing_state DB.empty "a.tif") 5
    ∧ (should_process_file fs0 DB.empty "a.tif" false none).1 = false :=
  ⟨(should_process_file_matches_reference_decision fsA DB.empty "a.tif" false none).1 5 rfl,
   (should_process_file_matches_reference_decision fs0 DB.empty "a.tif" false none).2 rfl⟩

/-- C10 counterexample: the store holds no completed record with hash "h"
and a non-empty blob path (its only record has the empty string as blob
path), yet `handle_duplicate_file` with the "skip" strategy treats that
record as an existing artifact: it returns true and records a skip. -/
theorem handle_duplicate_empty_blob_path_cex :
    dbQ.conversions.filter
        (fun r => r.status == "completed" && r.content_hash == "h"
          && r.blob_path.isSome && r.blob_path != some "") = []
    ∧ (handle_duplicate_file noFail fs0 dbQ "p" "h" "skip" none).1 = Except.ok true
    ∧ (handle_duplicate_file noFail fs0 dbQ "p" "h" "skip" none).2.processing_state.length = 1
    ∧ dbQ.processing_state.length = 0 :=
  ⟨rfl, rfl, rfl, rfl⟩

/-- C10 (amended): for every strategy, when no completed conversion record
with the given content hash and a non-NULL blob path exists, the existing-
artifact lookup fails and `handle_duplicate_file` returns false leaving the
store unchanged.  (The SQL filter is `blob_path IS NOT NULL`: an
empty-string blob path still counts as an existing artifact.) -/
theorem handle_duplicate_requires_existing_artifact :
    ∀ (oracle : Oracle) (fs : FS) (db : DB) (p h strategy : String)
      (rid : Option Nat),
      (∀ r ∈ db.conversions,
        ¬(r.status = "completed" ∧ r.content_hash = h ∧ r.blob_path.isSome = true)) →
      handle_duplicate_file oracle fs db p h strategy rid = (Except.ok false, db) := by
  intro oracle fs db p h strategy rid hno
  have hblob : get_existing_blob_for_content db h = none := by
    unfold get_existing_blob_for_content
    have hfind : db.conversions.find?
        (fun r => r.status == "completed" && r.content_hash == h && r.blob_path.isSome)
          = none := by
      rw [List.find?_eq_none]
      intro r hr hb
      simp only [Bool.and_eq_true, beq_iff_eq] at hb
      exact hno r hr ⟨hb.1.1, hb.1.2, hb.2⟩
    rw [hfind]
    rfl
  unfold handle_duplicate_file
  rw [hblob]

/-- C10 witness: the amended theorem evaluated on the empty store. -/
theorem handle_duplicate_requires_existing_artifact_witness :
    handle_duplicate_file noFail fs0 DB.empty "p" "h" "skip" none
      = (Except.ok false, DB.empty) :=
  handle_duplicate_requires_existing_artifact noFail fs0 DB.empty "p" "h" "skip" none
    (by intro r hr; cases hr)

/-- C9 counterexample: on a store whose only completed record carrying hash
"h" is the record for "p" itself, `handle_duplicate_file("p", "h",
"reference")` is not a no-op: it raises an integrity error (the duplicate-
reference insert collides with the uniqueness of the source path). -/
theorem handle_duplicate_self_reference_cex :
    ((dbSelf.conversions.filter
        (fun r => r.status == "completed" && r.content_hash == "h")).map
      (fun r => r.original_file_path) = ["p"])
    ∧ (handle_duplicate_file noFail fs0 dbSelf "p" "h" "reference" none).1
        = Except.error PyErr.integrityError := by
  exact ⟨by decide, rfl⟩

/-- C9 (amended): whenever the existing-artifact lookup returns the record
of the queried path itself, `handle_duplicate_file` with the "reference"
strategy raises an integrity error (propagated from the duplicate-reference
insert) and leaves the store unchanged; self-reference is not detected as a
no-op. -/
theorem handle_duplicate_self_reference_raises :
    ∀ (fs : FS) (db : DB) (p h : String) (rid : Option Nat) (info : BlobInfo),
      get_existing_blob_for_content db h = some info →
      info.original_file_path = p →
      handle_duplicate_file noFail fs db p h "reference" rid
        = (Except.error PyErr.integrityError, db) := by
  intro fs db p h rid info hblob hp
  obtain ⟨r, hmem, _, _, _, hrp⟩ := get_existing_blob_spec db h info hblob
  have hpe : pathExists db p = true := by
    unfold pathExists
    rw [List.any_eq_true]
    exact ⟨r, hmem, by rw [hrp, hp]; exact beq_self_eq_true p⟩
  unfold handle_duplicate_file
  rw [hblob]
  simp only [beq_self_eq_true, if_true]
  unfold create_duplicate_reference
  simp only [noFail, Bool.false_eq_true, if_false, hpe, if_true]

/-- C9 witness: the amended behaviour evaluated at the one-record store. -/
theorem handle_duplicate_self_reference_raises_witness :
    handle_duplicate_file noFail fs0 dbSelf "p" "h" "reference" none
      = (Except.error PyErr.integrityError, dbSelf) :=
  handle_duplicate_self_reference_raises fs0 dbSelf "p" "h" none
    ⟨some "b", some "u", 1, "p"⟩ rfl rfl

/-- C3 counterexample: writing a failure record for a path that already has
a conversion record propagates the integrity error instead of converting it
into an update. -/
theorem failed_record_unique_violation_propagates_cex :
    pathExists dbA "a.tif" = true
    ∧ add_failed_conversion noFail fs0 hashH dbA "a.tif" "err" (some "upload_failure") none
        = (Except.error PyErr.integrityError, dbA) :=
  ⟨rfl, rfl⟩

/-- C3 (amended): only the success-record operation recovers from a source-
path uniqueness violation — it updates the existing row in place, preserves
the original conversion identifier, and inserts no new row; the failure-
record and duplicate-reference operations propagate the integrity error and
leave the store unchanged. -/
theorem unique_violation_recovery_only_for_success_records :
    ∀ (fs : FS) (hashOf : String → String) (db : DB)
      (p cogp blobp h msg : String) (bloburl : Option String)
      (rid : Option Nat) (etype : Option String) (info : BlobInfo)
      (ex : ConversionRow),
      db.conversions.find? (fun r => r.original_file_path == p) = some ex →
      ((add_conversion_record noFail fs db p cogp blobp h bloburl rid).1
          = Except.ok { newCompletedRow fs db p cogp (some blobp) h bloburl rid with
              conversion_id := ex.conversion_id
              duplicate_of_conversion_id := ex.duplicate_of_conversion_id
              duplicate_of_file_path := ex.duplicate_of_file_path
              error_message := ex.error_message
              error_type := ex.error_type }
        ∧ (add_conversion_record noFail fs db p cogp blobp h bloburl rid).2.conversions.length
            = db.conversions.length)
      ∧ add_failed_conversion noFail fs hashOf db p msg etype rid
          = (Except.error PyErr.integrityError, db)
      ∧ create_duplicate_reference noFail fs db p info h rid
          = (Except.error PyErr.integrityError, db) := by
  intro fs hashOf db p cogp blobp h msg bloburl rid etype info ex hfind
  have hpe : pathExists db p = true := by
    unfold pathExists
    rw [List.any_eq_true]
    exact ⟨ex, List.mem_of_find?_eq_some hfind, by simpa using List.find?_some hfind⟩
  refine ⟨?_, ?_, ?_⟩
  · unfold add_conversion_record update_existing_record
    simp only [noFail, Bool.false_eq_true, if_false, hpe, if_true, hfind]
    exact ⟨trivial, by simp⟩
  · unfold add_failed_conversion
    simp only [noFail, Bool.false_eq_true, if_false, hpe, if_true]
  · unfold create_duplicate_reference
    simp only [noFail, Bool.false_eq_true, if_false, hpe, if_true]

end CogConv
namespace CogConv

/-- C3 witness: the recovery/propagation behaviour evaluated at a store
already holding a record for the path. -/
theorem unique_violation_recovery_only_for_success_records_witness :
    add_failed_conversion noFail fs0 hashH dbA "a.tif" "boom" none none
      = (Except.error PyErr.integrityError, dbA)
    ∧ (add_conversion_record noFail fs0 dbA "a.tif" "c2" "b2" "h2" none none).1
        = Except.ok { newCompletedRow fs0 dbA "a.tif" "c2" (some "b2") "h2" none none with
            conversion_id := rowA.conversion_id
            duplicate_of_conversion_id := rowA.duplicate_of_conversion_id
            duplicate_of_file_path := rowA.duplicate_of_file_path
            error_message := rowA.error_message
            error_type := rowA.error_type } := by
  have h := unique_violation_recovery_only_for_success_records fs0 hashH dbA
    "a.tif" "c2" "b2" "h2" "boom" none none none ⟨none, none, 1, "q"⟩ rowA rfl
  exact ⟨h.2.1, h.1.1⟩

/-- C6: only convert calls that raise are retried — a clean False on the
first call is terminal with zero retries; the retry count never exceeds
`max_retries` and each retry sleeps once for the fixed delay; every
non-final call raised; and in the concrete scenario (raise, raise, succeed,
`max_retries = 3`) the pipeline reports success with the retries counter
increased by exactly 2. -/
theorem retry_only_on_exceptions :
    ∀ (b : Nat → AttemptRes) (d mr : Nat),
      (b 0 = AttemptRes.failedRes →
        convert_loop b d mr 0 0 [] = ⟨false, 1, 0, [], none⟩)
      ∧ (convert_loop b d mr 0 0 []).retries ≤ mr
      ∧ (convert_loop b d mr 0 0 []).sleeps
          = List.replicate (convert_loop b d mr 0 0 []).retries d
      ∧ (∀ j, j + 1 < (convert_loop b d mr 0 0 []).calls →
          ∃ m, b j = AttemptRes.raised m)
      ∧ (process_file cfgRetry noFail fsA hashH chAll convRaise2 upErr DB.empty
            Stats.init "a.tif" none).result = Except.ok true
      ∧ (process_file cfgRetry noFail fsA hashH chAll convRaise2 upErr DB.empty
            Stats.init "a.tif" none).stats.retries = 2
      ∧ (process_file cfgRetry noFail fsA hashH chAll convRaise2 upErr DB.empty
            Stats.init "a.tif" none).stats.successful = 1 := by
  intro b d mr
  obtain ⟨h0, hbnd, hsl⟩ := convert_loop_acc b d mr 0 0 []
  refine ⟨convert_loop_fail_first b d mr, by omega, ?_, ?_, rfl, rfl, rfl⟩
  · simpa using hsl
  · intro j hj
    exact convert_loop_raised_before b d mr 0 0 [] j (Nat.zero_le j) hj

/-- C6 witness: the loop evaluated at a cleanly failing converter and at the
raise-raise-succeed converter. -/
theorem retry_only_on_exceptions_witness :
    convert_loop convFalse 5 3 0 0 [] = ⟨false, 1, 0, [], none⟩
    ∧ (convert_loop convRaise2 5 3 0 0 []).retries ≤ 3 :=
  ⟨(retry_only_on_exceptions convFalse 5 3).1 rfl,
   (retry_only_on_exceptions convRaise2 5 3).2.1⟩

/-- C7 counterexample: the store already holds a conversion record for
"a.tif" (a previously recorded file being reprocessed).  The conversion
succeeds (`successful` becomes 1) and the upload collaborator raises, yet no
failed record with error type "upload_failure" is written: the recording
insert violates the uniqueness of the source path, the integrity error
propagates out of `process_file`, and the store is left without any
upload_failure record. -/
theorem upload_failure_record_lost_cex :
    pathExists dbA "a.tif" = true
    ∧ (process_file cfgUpload noFail fsA hashH chAll convOk upErr dbA Stats.init
        "a.tif" none).stats.successful = 1
    ∧ (process_file cfgUpload noFail fsA hashH chAll convOk upErr dbA Stats.init
        "a.tif" none).result = Except.error PyErr.integrityError
    ∧ (process_file cfgUpload noFail fsA hashH chAll convOk upErr dbA Stats.init
        "a.tif" none).db.conversions.filter
        (fun r => r.error_type == some "upload_failure") = [] :=
  ⟨rfl, rfl, rfl, rfl⟩

/-- C7 (amended): when the upload collaborator raises after a successful
conversion (storage and metadata on, duplicate handling not interfering),
the `successful` counter keeps its increment and `upload_failed` is
incremented in every case; but the failed record with error type
"upload_failure" is written only when the path has no prior row in the
conversions table.  With a prior row, the recording insert hits the
path-uniqueness constraint, no record is written, and the integrity error
propagates out of `process_file` with the store unchanged. -/
theorem upload_failure_recorded :
    ∀ (cfg : Cfg) (fs : FS) (hashOf : String → String) (can : String → Bool)
      (conv : Nat → AttemptRes) (db : DB) (stats0 : Stats) (p msg : String)
      (rid : Option Nat),
      cfg.storage_enabled = true → cfg.metadata_enabled = true →
      cfg.detect_duplicates = false → can p = true →
      conv 0 = AttemptRes.ok →
      (process_file cfg noFail fs hashOf can conv (Except.error msg) db stats0 p
          rid).stats.successful = stats0.successful + 1
      ∧ (process_file cfg noFail fs hashOf can conv (Except.error msg) db stats0 p
          rid).stats.upload_failed = stats0.upload_failed + 1
      ∧ (pathExists db p = false →
          (process_file cfg noFail fs hashOf can conv (Except.error msg) db stats0 p
              rid).result = Except.ok false
          ∧ (process_file cfg noFail fs hashOf can conv (Except.error msg) db stats0 p
              rid).db.conversions
              = db.conversions
                ++ [newFailedRow fs db p (hashOf p) msg (some "upload_failure") none])
      ∧ (pathExists db p = true →
          (process_file cfg noFail fs hashOf can conv (Except.error msg) db stats0 p
              rid).result = Except.error PyErr.integrityError
          ∧ (process_file cfg noFail fs hashOf can conv (Except.error msg) db stats0 p
              rid).db = db) := by
  intro cfg fs hashOf can conv db stats0 p msg rid hS hM hD hcan hc
  have hssd : ∀ st, should_skip_duplicate cfg noFail fs hashOf db st p rid
      = (false, st, db, []) := by
    intro st
    unfold should_skip_duplicate
    rw [hM, hD]
    rfl
  have hsda : ∀ st, should_handle_duplicate_after cfg noFail fs hashOf db st p rid
      = (false, st, db, []) := by
    intro st
    unfold should_handle_duplicate_after
    rw [hM, hD]
    rfl
  have hloop := convert_loop_ok_first conv cfg.retry_delay cfg.max_retries hc
  cases hpe : pathExists db p
  · have hafc : add_failed_conversion noFail fs hashOf db p msg
        (some "upload_failure") none
        = (Except.ok (newFailedRow fs db p (hashOf p) msg (some "upload_failure") none),
            insertHashIndex
              (upsertState
                { db with
                  conversions := db.conversions
                    ++ [newFailedRow fs db p (hashOf p) msg (some "upload_failure") none]
                  next_conversion_id := db.next_conversion_id + 1 }
                ⟨p, none, "failed", hashOf p, fs.mtimeD p⟩)
              (hashOf p) p) := by
      unfold add_failed_conversion
      simp only [noFail, Bool.false_eq_true, if_false, hpe, if_true]
    simp only [process_file, hssd, hcan, Bool.not_true, Bool.false_eq_true, if_false,
      hloop, handle_post_conversion, hS, hM, Bool.and_self, hsda, hafc, if_true]
    refine ⟨trivial, trivial, fun _ => ⟨trivial, ?_⟩,
      fun hcontra => absurd hcontra (by decide)⟩
    rw [insertHashIndex_conversions, upsertState_conversions]
  · have hafc : add_failed_conversion noFail fs hashOf db p msg
        (some "upload_failure") none
        = (Except.error PyErr.integrityError, db) := by
      unfold add_failed_conversion
      simp only [noFail, Bool.false_eq_true, if_false, hpe, if_true]
    simp only [process_file, hssd, hcan, Bool.not_true, Bool.false_eq_true, if_false,
      hloop, handle_post_conversion, hS, hM, Bool.and_self, hsda, hafc, if_true]
    exact ⟨trivial, trivial, fun hcontra => absurd hcontra (by decide),
      fun _ => ⟨trivial, trivial⟩⟩

/-- C7 witness: the amended behaviour evaluated on the empty store (no prior
row: record written) and on a store with a prior row for the path (record
lost, error propagates). -/
theorem upload_failure_recorded_witness :
    (process_file cfgUpload noFail fsA hashH chAll convOk (Except.error "neterr")
        DB.empty Stats.init "a.tif" none).result = Except.ok false
    ∧ (process_file cfgUpload noFail fsA hashH chAll convOk (Except.error "neterr")
        dbA Stats.init "a.tif" none).result = Except.error PyErr.integrityError :=
  ⟨((upload_failure_recorded cfgUpload fsA hashH chAll convOk DB.empty Stats.init
      "a.tif" "neterr" none rfl rfl rfl rfl rfl).2.2.1 rfl).1,
   ((upload_failure_recorded cfgUpload fsA hashH chAll convOk dbA Stats.init
      "a.tif" "neterr" none rfl rfl rfl rfl rfl).2.2.2 rfl).1⟩

/-- When handed a nonempty trace, the post-conversion handler keeps its
first event. -/
theorem handle_post_conversion_trace_head (cfg : Cfg) (oracle : Oracle)
    (fs : FS) (hashOf : String → String) (upload : Except String UploadResult)
    (db : DB) (stats : Stats) (p : String) (rid : Option Nat) (a : Ev)
    (tr : List Ev) :
    (handle_post_conversion cfg oracle fs hashOf upload db stats p rid
      (a :: tr)).trace.head? = some a := by
  obtain ⟨s, hs⟩ := handle_post_conversion_trace cfg oracle fs hashOf upload
    db stats p rid (a :: tr)
  rw [hs]
  rfl

/-- When handed a nonempty trace, the metadata-only handler keeps its first
event. -/
theorem handle_metadata_only_trace_head (cfg : Cfg) (oracle : Oracle)
    (fs : FS) (hashOf : String → String) (db : DB) (stats : Stats)
    (p cogp : String) (rid : Option Nat) (a : Ev) (tr : List Ev) :
    (handle_metadata_only cfg oracle fs hashOf db stats p cogp rid
      (a :: tr)).trace.head? = some a := by
  obtain ⟨s, hs⟩ := handle_metadata_only_trace cfg oracle fs hashOf db stats
    p cogp rid (a :: tr)
  rw [hs]
  rfl

/-- C1 counterexample: with duplicate detection on (strategy "skip") and the
hash index already holding another path under the file's hash, the very
first and only event of `process_file` is the duplicate check — it runs with
zero conversion attempts and with no completed record for the file in the
store (the conversions table is empty), and the file is skipped. -/
theorem duplicate_check_precedes_conversion_cex :
    (process_file cfgPre noFail fsA hashH chAll convOk upErr dbIdx Stats.init
        "a.tif" none).trace = [Ev.dupCheck]
    ∧ dbIdx.conversions = []
    ∧ (process_file cfgPre noFail fsA hashH chAll convOk upErr dbIdx Stats.init
        "a.tif" none).stats.skipped = 1 :=
  ⟨rfl, rfl, rfl⟩

/-- C1 (amended): with duplicate detection enabled the duplicate check runs
*before* the conversion attempt — it is always the first event of
`process_file` — not after a durable completed record; and when the
"reference" handling succeeds, the direction is as specified: a new
`duplicate_referenced` record for this file is appended, pointing at a
pre-existing completed record, and every pre-existing record is left in
place (never the reverse). -/
theorem duplicate_check_order_and_reference_direction :
    ∀ (cfg : Cfg) (oracle : Oracle) (fs : FS) (hashOf : String → String)
      (can : String → Bool) (conv : Nat → AttemptRes)
      (upload : Except String UploadResult) (db : DB) (stats : Stats)
      (p : String) (rid : Option Nat) (h : String) (info : BlobInfo),
      (cfg.metadata_enabled = true → cfg.detect_duplicates = true →
        (process_file cfg oracle fs hashOf can conv upload db stats p
          rid).trace.head? = some Ev.dupCheck)
      ∧ (get_existing_blob_for_content db h = some info →
          pathExists db p = false →
          (handle_duplicate_file noFail fs db p h "reference" rid).1
              = Except.ok true
          ∧ (handle_duplicate_file noFail fs db p h "reference" rid).2.conversions
              = db.conversions ++ [newDuplicateRow fs db p info h rid]
          ∧ (newDuplicateRow fs db p info h rid).status = "duplicate_referenced"
          ∧ (newDuplicateRow fs db p info h rid).duplicate_of_conversion_id
              = some info.original_conversion_id
          ∧ ∃ r ∈ db.conversions, r.status = "completed" ∧ r.content_hash = h
              ∧ r.conversion_id = info.original_conversion_id) := by
  intro cfg oracle fs hashOf can conv upload db stats p rid h info
  constructor
  · intro hM hD
    have htr := should_skip_duplicate_trace cfg oracle fs hashOf db
      { stats with total_files := stats.total_files + 1 } p rid hM hD
    simp only [process_file]
    repeat' split
    all_goals rw [htr]
    all_goals simp only [List.singleton_append, List.cons_append,
      handle_post_conversion_trace_head, handle_metadata_only_trace_head,
      List.head?_cons]
  · intro hblob hpe
    obtain ⟨r, hmem, hst, hh, hid, _⟩ := get_existing_blob_spec db h info hblob
    refine ⟨?_, ?_, rfl, rfl, ⟨r, hmem, hst, hh, hid⟩⟩
    · unfold handle_duplicate_file create_duplicate_reference
      rw [hblob]
      simp only [beq_self_eq_true, if_true, noFail, Bool.false_eq_true,
        if_false, hpe]
    · unfold handle_duplicate_file create_duplicate_reference
      rw [hblob]
      simp only [beq_self_eq_true, if_true, noFail, Bool.false_eq_true,
        if_false, hpe]
      rw [insertHashIndex_conversions, upsertState_conversions]

/-- C1 witness: the two parts evaluated on a store holding a completed
record for "q" with hash "h". -/
theorem duplicate_check_order_and_reference_direction_witness :
    (process_file cfgPre noFail fsA hashH chAll convOk upErr dbDone Stats.init
        "a.tif" none).trace.head? = some Ev.dupCheck
    ∧ (handle_duplicate_file noFail fsA dbDone "a.tif" "h" "reference" none).1
        = Except.ok true :=
  ⟨(duplicate_check_order_and_reference_direction cfgPre noFail fsA hashH chAll
      convOk upErr dbDone Stats.init "a.tif" none "h"
      ⟨some "b", some "u", 1, "q"⟩).1 rfl rfl,
   ((duplicate_check_order_and_reference_direction cfgPre noFail fsA hashH chAll
      convOk upErr dbDone Stats.init "a.tif" none "h"
      ⟨some "b", some "u", 1, "q"⟩).2 rfl rfl).1⟩

end CogConv
